import Mathlib

/-!
Verification of the web-summarizer-agent repository.

Texts are modelled as lists of characters (`Str`), matching Python string
semantics where `len` counts code points and slicing is positional.
External collaborators (HTTP transport, readability/BeautifulSoup pass,
the generative-AI client, the JSON library, pydantic's URL parser) are
modelled as explicit parameters; everything written in the repository
itself is translated directly from the source.
-/

/-- Python strings as lists of characters. -/
abbrev Str := List Char

/-- Coerce a Lean string literal to the `Str` model. -/
def str (s : String) : Str := s.data

/-- The newline character. -/
def nl : Char := Char.ofNat 10

/-- Python `str.lower()` (ASCII model). -/
def pyLower (s : Str) : Str := s.map Char.toLower

/-- Python whitespace characters recognised by `str.strip()` / `str.split()`
(ASCII model: space, tab, newline, carriage return, vertical tab, form feed). -/
def isPyWs (c : Char) : Bool :=
  c = Char.ofNat 32 ∨ c = Char.ofNat 9 ∨ c = Char.ofNat 10 ∨
  c = Char.ofNat 13 ∨ c = Char.ofNat 11 ∨ c = Char.ofNat 12

/-- Python `str.strip()`: remove leading and trailing whitespace. -/
def pyStrip (s : Str) : Str :=
  ((s.dropWhile isPyWs).reverse.dropWhile isPyWs).reverse

/-- Python `str.split()` with no separator: split on whitespace runs,
dropping empty pieces. -/
def pySplitWs (s : Str) : List Str :=
  (s.splitBy (fun a b => isPyWs a == isPyWs b)).filter
    (fun g => match g.head? with
      | some c => ¬ isPyWs c
      | none => false)

/-- Python `str.capitalize()`: first character upper-cased, the rest
lower-cased (ASCII model). -/
def pyCapitalize (s : Str) : Str :=
  match s with
  | [] => []
  | c :: rest => Char.toUpper c :: rest.map Char.toLower

/-- Python slicing `s[:k]` for a possibly negative Python int `k`:
non-negative `k` keeps the first `k` characters, negative `k` drops the
last `-k` characters (clamped at the empty string). -/
def pySlice (s : Str) (k : Int) : Str :=
  if 0 ≤ k then s.take k.toNat else s.take (s.length - (-k).toNat)

/-- Python `str.replace(pat, rep, 1)`: replace the first occurrence only. -/
def replaceFirst (pat rep : Str) : Str → Str
  | [] => if pat = [] then rep else []
  | c :: t =>
    if pat.isPrefixOf (c :: t) then rep ++ (c :: t).drop pat.length
    else c :: replaceFirst pat rep t

/-- Python `str.replace(old, new)` for single characters. -/
def replaceChar (old new : Char) (s : Str) : Str :=
  s.map (fun c => if c = old then new else c)

/-- Join a list of strings with a single space (Python `" ".join`). -/
def joinSpace (l : List Str) : Str := List.intercalate (str " ") l

/-- Join a list of strings with newlines (Python `"\n".join`). -/
def joinNl (l : List Str) : Str := List.intercalate [nl] l

/-- Test whether an `Except` value is an error. -/
def isErr {ε α : Type} : Except ε α → Bool
  | .error _ => true
  | .ok _ => false

/-!
## models.py — pydantic data models

Each pydantic `BaseModel` whose construction can fail is embedded as a
structure of validated values together with a `make` function returning
`Except`, mirroring the `Field` constraints and `field_validator`s run in
field-declaration order.
-/

/-- Model of `SummaryMetadata` (models.py lines 51-59).  The `ge=0` fields are
modelled as `Nat`; the timestamp is an opaque string supplied by the
caller (the default is an external clock). -/
structure SummaryMetadata where
  timestamp : Str
  tokens_used : Nat
  processing_time_ms : Nat
  model_used : Str
  content_length : Nat
  extraction_method : Str
deriving DecidableEq, Repr

/-- Model of `SummaryData` (models.py lines 62-71). -/
structure SummaryData where
  url : Str
  title : Option Str
  summary : Str
  key_points : List Str
  citations : Option (List Str)
  category : Option Str
  metadata : SummaryMetadata
deriving DecidableEq, Repr

/-- Model of `SummaryResponse` (models.py lines 74-96): the raw field record. -/
structure SummaryResponse where
  success : Bool
  data : Option SummaryData
  error : Option Str
  error_code : Option Str
deriving DecidableEq, Repr

/-- Construction of `SummaryResponse` (models.py lines 74-96): pydantic runs
the `data` validator (`data must be provided when success is True`,
lines 82-88) and the `error` validator (`error must be provided when
success is False`, lines 90-96); a raised `ValueError` makes the whole
construction fail. -/
def SummaryResponse.make (success : Bool) (data : Option SummaryData)
    (error : Option Str) (error_code : Option Str) :
    Except Str SummaryResponse :=
  if success ∧ data = none then
    Except.error (str "data must be provided when success is True")
  else if ¬ success ∧ error = none then
    Except.error (str "error must be provided when success is False")
  else
    Except.ok ⟨success, data, error, error_code⟩

/-- The allowed model names of `SummaryOptions.validate_model`
(models.py lines 24-28). -/
def allowedModels : List Str :=
  [str "gemini-1.5-flash", str "gemini-1.5-pro", str "gemini-1.0-pro"]

/-- Model of `SummaryOptions` (models.py lines 11-31): the validated record.
Integer fields are Python ints, modelled as `Int`. -/
structure SummaryOptions where
  max_summary_sentences : Int
  num_key_points : Int
  include_citations : Bool
  model : Str
  timeout_seconds : Int
deriving DecidableEq, Repr

/-- Construction of `SummaryOptions` (models.py lines 11-31): the `Field`
bounds `ge=1, le=10` on `max_summary_sentences` and `num_key_points`,
`ge=1, le=60` on `timeout_seconds`, and the `validate_model` allowed-name
check, applied in field-declaration order. -/
def SummaryOptions.make (mss nkp : Int) (cit : Bool) (model : Str)
    (tos : Int) : Except Str SummaryOptions :=
  if ¬ (1 ≤ mss ∧ mss ≤ 10) then
    Except.error (str "max_summary_sentences out of range")
  else if ¬ (1 ≤ nkp ∧ nkp ≤ 10) then
    Except.error (str "num_key_points out of range")
  else if ¬ allowedModels.contains model then
    Except.error (str "Model must be one of the allowed models")
  else if ¬ (1 ≤ tos ∧ tos ≤ 60) then
    Except.error (str "timeout_seconds out of range")
  else
    Except.ok ⟨mss, nkp, cit, model, tos⟩

/-!
## topic_aggregator.py — social media post generation
-/

/-- Model of `SocialMediaPost` (topic_aggregator.py lines 14-20). -/
structure SocialMediaPost where
  platform : Str
  content : Str
  hashtags : List Str
  character_count : Nat
deriving DecidableEq, Repr

/-- Model of `TopicAggregator._generate_twitter_post` (topic_aggregator.py lines
225-259): reserve 23 characters for a shortened URL plus the first three
hashtags plus 4 separator characters; the body is the first key point, or
the first 100 characters of the summary when there is none, truncated
with a three-character ellipsis when it exceeds the remaining budget; the
final text is body, blank line, the (unshortened) URL, blank line,
hashtags. -/
def generateTwitterPost (summary : Str) (key_points : List Str)
    (url : Str) (hashtags : List Str) : SocialMediaPost :=
  let hashtag_text := joinSpace (hashtags.take 3)
  let reserved : Int := 23 + hashtag_text.length + 4
  let content0 :=
    match key_points with
    | [] => summary.take 100
    | k :: _ => k
  let available : Int := 280 - reserved
  let content :=
    if (content0.length : Int) > available then
      pySlice content0 (available - 3) ++ str "..."
    else content0
  let post_text := content ++ [nl, nl] ++ url ++ [nl, nl] ++ hashtag_text
  ⟨str "twitter", post_text, hashtags.take 3, post_text.length⟩

/-- Render an `Optional[str]` the way a Python f-string does: `None`
prints as the text `None`. -/
def renderOpt (t : Option Str) : Str := t.getD (str "None")

/-- Model of `TopicAggregator._generate_linkedin_post` (topic_aggregator.py lines
261-302): header, blank line, summary, blank line, `Key Insights:`, up to
five numbered key points, blank line, `Read more:` URL, blank line, up to
five hashtags; truncated to 2997 characters plus ellipsis when longer
than 3000. -/
def generateLinkedinPost (topic : Str) (title : Option Str)
    (summary : Str) (key_points : List Str) (url : Str)
    (hashtags : List Str) : SocialMediaPost :=
  let header := str "📊 " ++ topic ++ str ": " ++ renderOpt title
  let numbered := (key_points.take 5).mapIdx
    (fun i p => (Nat.repr (i + 1)).data ++ str ". " ++ p)
  let post_parts :=
    [header, [], summary, [], str "Key Insights:"] ++ numbered ++
    [[], str "Read more: " ++ url, [], joinSpace (hashtags.take 5)]
  let post_text0 := joinNl post_parts
  let post_text :=
    if post_text0.length > 3000 then post_text0.take 2997 ++ str "..."
    else post_text0
  ⟨str "linkedin", post_text, hashtags.take 5, post_text.length⟩

/-- Model of `TopicAggregator._generate_facebook_post` (topic_aggregator.py lines
304-341): title, blank line, summary, blank line, `✨ Highlights:`, up to
three bulleted key points, blank line, URL line, blank line, up to three
hashtags; no length cap. -/
def generateFacebookPost (topic : Str) (title : Option Str)
    (summary : Str) (key_points : List Str) (url : Str)
    (hashtags : List Str) : SocialMediaPost :=
  let bullets := (key_points.take 3).map (fun p => str "• " ++ p)
  let post_parts :=
    [str "💡 " ++ renderOpt title, [], summary, [], str "✨ Highlights:"] ++
    bullets ++
    [[], str "🔗 " ++ url, [], joinSpace (hashtags.take 3)]
  let post_text := joinNl post_parts
  ⟨str "facebook", post_text, hashtags.take 3, post_text.length⟩

/-- The emoji cycle of `_generate_instagram_post`
(topic_aggregator.py line 358). -/
def instagramEmojis : List Str :=
  [str "📌", str "💡", str "🎯", str "⚡", str "🔥"]

/-- Model of `TopicAggregator._generate_instagram_post` (topic_aggregator.py lines
343-379): summary, blank line, `✨ Key takeaways:`, up to five key points
prefixed by a cycling emoji, blank line, up to thirty hashtags; truncated
to 2197 characters plus ellipsis when longer than 2200. -/
def generateInstagramPost (summary : Str) (key_points : List Str)
    (hashtags : List Str) : SocialMediaPost :=
  let pointed := (key_points.take 5).mapIdx
    (fun i p => (instagramEmojis.getD (i % instagramEmojis.length) []) ++
      str " " ++ p)
  let post_parts :=
    [summary, [], str "✨ Key takeaways:"] ++ pointed ++
    [[], joinSpace (hashtags.take 30)]
  let post_text0 := joinNl post_parts
  let post_text :=
    if post_text0.length > 2200 then post_text0.take 2197 ++ str "..."
    else post_text0
  ⟨str "instagram", post_text, hashtags.take 30, post_text.length⟩

/-- Append an element to an ordered association list, overwriting an
existing binding in place (Python dict insertion semantics). -/
def dictInsert (d : List (Str × SocialMediaPost)) (k : Str)
    (v : SocialMediaPost) : List (Str × SocialMediaPost) :=
  if d.any (fun kv => kv.1 = k) then
    d.map (fun kv => if kv.1 = k then (k, v) else kv)
  else d ++ [(k, v)]

/-- Fold a list into insertion-ordered distinct elements.  Python's `set`
iterates in an unspecified hash order; the spec itself promises no order
for hashtags, so first-insertion order is a sound deterministic model for
the properties proved here (none depends on hashtag order). -/
def dedupInsertionOrder (l : List Str) : List Str :=
  l.foldl (fun acc x => if acc.contains x then acc else acc ++ [x]) []

/-- Model of `TopicAggregator._generate_hashtags` (topic_aggregator.py lines
420-435): hyphens/underscores in the topic become spaces, words longer
than three characters are capitalised and prefixed with `#`, three fixed
generic tags are added, and at most ten tags are returned. -/
def generateHashtags (topic : Str) : List Str :=
  let topic_words := pySplitWs (replaceChar '_' ' ' (replaceChar '-' ' ' topic))
  let topicTags := (topic_words.filter (fun w => w.length > 3)).map
    (fun w => '#' :: pyCapitalize w)
  (dedupInsertionOrder (topicTags ++
    [str "#TechNews", str "#Innovation", str "#DigitalTransformation"])).take 10

/-- Model of `TopicAggregator._generate_social_posts` (topic_aggregator.py lines
190-223): build the hashtag list once, then for each requested platform
(case-insensitively) add the platform's post to the dict. -/
def generateSocialPosts (topic : Str) (summary : Str)
    (key_points : List Str) (url : Str) (title : Option Str)
    (platforms : List Str) : List (Str × SocialMediaPost) :=
  let hashtags := generateHashtags topic
  platforms.foldl (fun posts p =>
    let lp := pyLower p
    if lp = str "twitter" then
      dictInsert posts (str "twitter")
        (generateTwitterPost summary key_points url hashtags)
    else if lp = str "linkedin" then
      dictInsert posts (str "linkedin")
        (generateLinkedinPost topic title summary key_points url hashtags)
    else if lp = str "facebook" then
      dictInsert posts (str "facebook")
        (generateFacebookPost topic title summary key_points url hashtags)
    else if lp = str "instagram" then
      dictInsert posts (str "instagram")
        (generateInstagramPost summary key_points hashtags)
    else posts) []

/-!
## summarizer.py — AISummarizer construction, and topic_aggregator.py's
master-summary pass
-/

/-- Model of `AISummarizer` (summarizer.py lines 25-34): `__init__` stores the API
key and configures the external client library; it assigns no other
instance attribute. -/
structure AISummarizer where
  api_key : Str
deriving DecidableEq, Repr

/-- The instance attributes `AISummarizer.__init__` assigns
(summarizer.py line 29: `self.api_key = ...` is the only assignment). -/
def AISummarizer.assignedAttrs (_ : AISummarizer) : List Str :=
  [str "api_key"]

/-- Whether an `AISummarizer` instance carries a `client` attribute.
No method of the class ever assigns one, so a lookup of
`summarizer.client` raises `AttributeError` in Python; this decides that
lookup from the assigned-attribute list. -/
def AISummarizer.hasClientAttr (s : AISummarizer) : Bool :=
  s.assignedAttrs.contains (str "client")

/-- Python attribute read `response.data.summary` on a `SummaryResponse`:
defined when `data` is present.  Success responses built by the validated
constructor always carry data; on a success without data Python would
raise, and theorems about this access carry the corresponding
hypothesis. -/
def dataSummary (r : SummaryResponse) : Str :=
  (r.data.map SummaryData.summary).getD []

/-- Python attribute read `response.data.url` (same caveat as
`dataSummary`). -/
def dataUrl (r : SummaryResponse) : Str :=
  (r.data.map SummaryData.url).getD []

/-- Python attribute read `response.data.title` (same caveat as
`dataSummary`). -/
def dataTitle (r : SummaryResponse) : Option Str :=
  (r.data.map SummaryData.title).getD none

/-- Python attribute read `response.data.key_points` (same caveat as
`dataSummary`). -/
def dataKeyPoints (r : SummaryResponse) : List Str :=
  (r.data.map SummaryData.key_points).getD []

/-- The synthesis prompt of `_generate_master_summary`
(topic_aggregator.py lines 399-408). -/
def masterPrompt (topic combined : Str) : Str :=
  joinNl
    [str "Based on the following summaries about \"" ++ topic ++
       str "\", create a comprehensive master summary that:",
     str "1. Synthesizes the key insights from all sources",
     str "2. Highlights common themes and patterns",
     str "3. Notes any contrasting viewpoints",
     str "4. Is concise yet informative (3-5 sentences)",
     [],
     str "Summaries:",
     combined,
     [],
     str "Master Summary:"]

/-- Model of `TopicAggregator._generate_master_summary` (topic_aggregator.py lines
381-418).  `gen` models what `client.generate_content(...).text` would
return if a client existed; the code reaches it through
`self.agent.summarizer.client`, an attribute `AISummarizer` never
assigns, so in the multi-source branch the attribute lookup raises and
the `except` fallback returns the first successful summary. -/
def generateMasterSummary (summarizer : AISummarizer)
    (gen : Str → Except Str Str) (summaries : List SummaryResponse)
    (topic : Str) : Str :=
  let successful := summaries.filter (fun s => s.success)
  match successful with
  | [] => str "No articles were successfully summarized for the topic: " ++ topic
  | [s] => dataSummary s
  | s :: _ =>
    let combined := List.intercalate (str "\n\n---\n\n")
      (successful.map (fun t =>
        str "Source: " ++ renderOpt (dataTitle t) ++ [nl] ++ dataSummary t))
    let attempt : Except Str Str :=
      if summarizer.hasClientAttr then gen (masterPrompt topic combined)
      else Except.error (str "AttributeError: AISummarizer has no attribute client")
    match attempt with
    | .ok m => pyStrip m
    | .error _ => dataSummary s

/-!
## topic_aggregator.py — fan-out and aggregation
-/

/-- Model of `TopicAggregator._fetch_summaries` (topic_aggregator.py lines
161-188): each URL's unit of work either returns a `SummaryResponse` or
raises; a raised exception is converted to a failed response with
error code `FETCH_FAILED`.  The worker pool produces exactly one response
per submitted URL; completion order only permutes the list and no
property proved here depends on order, so the fan-out is modelled as a
map in URL order. -/
def fetchSummaries (outcome : Str → Except Str SummaryResponse)
    (urls : List Str) : List SummaryResponse :=
  urls.map (fun u =>
    match outcome u with
    | .ok s => s
    | .error e => ⟨false, none, some e, some (str "FETCH_FAILED")⟩)

/-- One export row of `aggregate_topic` (topic_aggregator.py lines
81-99): the base dict plus the three per-platform entries, kept here as
the platform→post map they are derived from. -/
structure Row where
  source_url : Str
  title : Option Str
  category : Option Str
  summary : Str
  key_points : Str
  word_count : Nat
  tokens_used : Nat
  processing_time_ms : Nat
  timestamp : Str
  posts : List (Str × SocialMediaPost)
deriving DecidableEq, Repr

/-- Build the export row for one successful summary (topic_aggregator.py
lines 72-99). -/
def rowFor (topic : Str) (platforms : List Str) (d : SummaryData) : Row :=
  let social_posts :=
    generateSocialPosts topic d.summary d.key_points d.url d.title platforms
  ⟨d.url, d.title, d.category, d.summary,
   List.intercalate (str "; ") d.key_points,
   (pySplitWs d.summary).length,
   d.metadata.tokens_used, d.metadata.processing_time_ms,
   d.metadata.timestamp, social_posts⟩

/-- One element of the `summaries` echo list (topic_aggregator.py lines
141-153): url/data fields echoed for successes, empty strings and the
error for failures. -/
structure SummaryEcho where
  url : Str
  success : Bool
  title : Option Str
  summary : Str
  key_points : List Str
  error : Option Str
deriving DecidableEq, Repr

/-- Build the echo entry for one response (topic_aggregator.py lines
141-153). -/
def echoOf (r : SummaryResponse) : SummaryEcho :=
  if r.success then
    ⟨dataUrl r, true, dataTitle r, dataSummary r, dataKeyPoints r, none⟩
  else ⟨[], false, none, [], [], r.error⟩

/-- The result dictionary of `aggregate_topic` (topic_aggregator.py lines
132-155).  `generated_at` is an external clock read and is omitted. -/
structure AggregationResult where
  topic : Str
  total_sources : Nat
  successful_summaries : Nat
  failed_summaries : Nat
  platforms : List Str
  master_summary : Str
  social_media_posts : List (Str × Str)
  summaries : List SummaryEcho
  data : List Row
deriving DecidableEq, Repr

/-- Model of `TopicAggregator.aggregate_topic` (topic_aggregator.py lines 35-159):
fan out over the URLs, build one export row per successful response,
generate the master summary, pool the first five key points across all
successes, and build consolidated posts from the master summary. -/
def aggregateTopic (summarizer : AISummarizer) (gen : Str → Except Str Str)
    (topic : Str) (urls : List Str) (platformsOpt : Option (List Str))
    (outcome : Str → Except Str SummaryResponse) : AggregationResult :=
  let platforms :=
    platformsOpt.getD [str "twitter", str "linkedin", str "facebook"]
  let summaries := fetchSummaries outcome urls
  let rows := summaries.filterMap (fun r =>
    if r.success then r.data.map (rowFor topic platforms) else none)
  let master_summary := generateMasterSummary summarizer gen summaries topic
  let all_key_points := (summaries.filterMap (fun r =>
    if r.success then some (dataKeyPoints r) else none)).flatten
  let first_url :=
    (((summaries.filter (fun r => r.success)).head?.map dataUrl)).getD []
  let first_title := topic ++ str " - Research Summary"
  let consolidated := generateSocialPosts topic master_summary
    (all_key_points.take 5) first_url (some first_title) platforms
  ⟨topic, urls.length, rows.length, urls.length - rows.length, platforms,
   master_summary,
   consolidated.map (fun kv => (kv.1, kv.2.content)),
   summaries.map echoOf, rows⟩

/-!
## summarizer.py — response parsing (the JSON-or-fallback strategy)

The JSON library is an external collaborator, modelled as a parameter
`jsonParse : Str → Option Json` over an abstract JSON value type; the
regex `\x7b.*\x7d` with `re.DOTALL` and the fallback priority order are
translated from the source.
-/

/-- Abstract JSON values as returned by `json.loads`. -/
inductive Json where
  | null : Json
  | bool (b : Bool) : Json
  | num (n : Int) : Json
  | s (text : Str) : Json
  | arr (items : List Json) : Json
  | obj (fields : List (Str × Json)) : Json

/-- The opening brace character. -/
def lbrace : Char := Char.ofNat 123

/-- The closing brace character. -/
def rbrace : Char := Char.ofNat 125

/-- Index of the last occurrence of `c`, if any. -/
def lastIdxOf (c : Char) (l : Str) : Option Nat :=
  match l.reverse.findIdx? (fun x => x = c) with
  | none => none
  | some k => some (l.length - 1 - k)

/-- The match of `re.search` with pattern `\x7b.*\x7d` and `re.DOTALL`
(summarizer.py line 195): the leftmost starting position with a match is
the first `\x7b` that has some `\x7d` after it, and the greedy `.*`
extends the match to the last `\x7d` of the whole text. -/
def braceSearch (text : Str) : Option Str :=
  match lastIdxOf rbrace text with
  | none => none
  | some j =>
    match (text.take j).findIdx? (fun x => x = lbrace) with
    | none => none
    | some i => some ((text.take (j + 1)).drop i)

/-- The synthetic degradation result of `_extract_from_text`
(summarizer.py lines 202-207). -/
def syntheticResult (text : Str) : Json :=
  Json.obj
    [(str "summary", Json.s (if text.length > 500 then text.take 500 else text)),
     (str "key_points", Json.arr [Json.s (str "Unable to extract structured data")]),
     (str "category", Json.s (str "Unknown"))]

/-- Model of `AISummarizer._extract_from_text` (summarizer.py lines 188-207):
search for a brace-delimited substring and JSON-parse it; on no match or
a parse failure, return the synthetic structure. -/
def extractFromText (jsonParse : Str → Option Json) (text : Str) : Json :=
  match braceSearch text with
  | some sub =>
    match jsonParse sub with
    | some j => j
    | none => syntheticResult text
  | none => syntheticResult text

/-- The response-parsing step of `AISummarizer.summarize` (summarizer.py
lines 101-107): strict `json.loads` of the whole body first, falling back
to `_extract_from_text`. -/
def parseModelResponse (jsonParse : Str → Option Json) (content : Str) : Json :=
  match jsonParse content with
  | some r => r
  | none => extractFromText jsonParse content

/-!
## fetcher.py — URL fetching and failure mapping
-/

/-- Model of `FetchError` (fetcher.py lines 15-21). -/
structure FetchError where
  message : Str
  error_code : Str
deriving DecidableEq, Repr

/-- What the external HTTP transport does for one GET: a response with a
status code, body and final URL; a `Timeout`; another `RequestException`;
or any other exception. -/
inductive TransportOutcome where
  | success (status : Nat) (body : Str) (final_url : Str)
  | timeout
  | requestExc (msg : Str)
  | otherExc (msg : Str)
deriving DecidableEq, Repr

/-- Model of `URLFetcher.fetch` (fetcher.py lines 37-141).  `scheme` and `netloc`
are the components the external `urlparse` returns for the URL.  Missing
scheme or host raises `INVALID_URL` before any request; an `http` scheme
is upgraded to `https` in the request URL; statuses 404/403/500 map to
`NOT_FOUND`/`FORBIDDEN`/`SERVER_ERROR`, any other status ≥ 400 to
`HTTP_<status>`, a transport timeout to `TIMEOUT`, another transport
exception to `REQUEST_FAILED`, and anything else to `UNKNOWN_ERROR`. -/
def URLFetcher.fetch (scheme netloc url : Str)
    (outcome : TransportOutcome) : Except FetchError (Str × Str) :=
  if scheme = [] ∨ netloc = [] then
    Except.error ⟨str "Invalid URL format: " ++ url, str "INVALID_URL"⟩
  else
    let url' := if scheme = str "http" then
      replaceFirst (str "http://") (str "https://") url else url
    match outcome with
    | .success status body final_url =>
      if status = 404 then
        Except.error ⟨str "Page not found (404): " ++ url', str "NOT_FOUND"⟩
      else if status = 403 then
        Except.error ⟨str "Access forbidden (403): " ++ url', str "FORBIDDEN"⟩
      else if status = 500 then
        Except.error ⟨str "Server error (500): " ++ url', str "SERVER_ERROR"⟩
      else if status ≥ 400 then
        Except.error ⟨str "HTTP error " ++ (Nat.repr status).data ++
          str ": " ++ url', str "HTTP_" ++ (Nat.repr status).data⟩
      else Except.ok (body, final_url)
    | .timeout =>
      Except.error ⟨str "Request timeout: " ++ url', str "TIMEOUT"⟩
    | .requestExc m =>
      Except.error ⟨str "Failed to fetch URL: " ++ m, str "REQUEST_FAILED"⟩
    | .otherExc m =>
      Except.error ⟨str "Unexpected error while fetching URL: " ++ m,
        str "UNKNOWN_ERROR"⟩

/-!
## extractor.py — content extraction
-/

/-- Model of `ExtractionError` (extractor.py lines 15-21). -/
structure ExtractionError where
  message : Str
  error_code : Str
deriving DecidableEq, Repr

/-- The `\n\x7b3,\x7d → \n\n` substitution of `_clean_text`
(extractor.py line 139): every maximal run of three or more newlines
becomes exactly two. -/
def collapseNewlines (l : Str) : Str :=
  ((l.splitBy (fun a b => a == b)).map (fun r =>
    if r.head? = some nl ∧ r.length ≥ 3 then [nl, nl] else r)).flatten

/-- Space or tab. -/
def isSpTab (c : Char) : Bool := c = Char.ofNat 32 ∨ c = Char.ofNat 9

/-- The `[ \t]+ → " "` substitution of `_clean_text` (extractor.py line
142): every maximal run of spaces/tabs becomes one space. -/
def collapseSpaces (l : Str) : Str :=
  ((l.splitBy (fun a b => isSpTab a == isSpTab b)).map (fun r =>
    if (r.head?.map isSpTab).getD false then [Char.ofNat 32] else r)).flatten

/-- Model of `ContentExtractor._clean_text` (extractor.py lines 136-153): collapse
newline runs, collapse space/tab runs, strip each line, drop empty lines,
re-join and strip. -/
def cleanText (text : Str) : Str :=
  let t1 := collapseNewlines text
  let t2 := collapseSpaces t1
  let lines := (t2.splitOn nl).map pyStrip
  let lines2 := lines.filter (fun line => line ≠ [])
  pyStrip (joinNl lines2)

/-- The ellipsis marker appended on truncation (extractor.py line 83). -/
def ellipsis : Str := str "..."

/-- The length-validation tail of `ContentExtractor.extract`
(extractor.py lines 69-87), applied to the text the external
readability/BeautifulSoup pass produced: clean it, raise
`INSUFFICIENT_CONTENT` below the configured minimum, truncate with an
ellipsis above the configured maximum. -/
def ContentExtractor.extract (min_content_length max_content_length : Nat)
    (text : Str) : Except ExtractionError Str :=
  let cleaned_text := cleanText text
  if cleaned_text.length < min_content_length then
    Except.error ⟨str "Insufficient content extracted",
      str "INSUFFICIENT_CONTENT"⟩
  else if cleaned_text.length > max_content_length then
    Except.ok (cleaned_text.take max_content_length ++ ellipsis)
  else Except.ok cleaned_text

/-!
## agent.py — the fetch → extract → summarize pipeline
-/

/-- Model of `SummarizationError` (summarizer.py lines 16-22). -/
structure SummarizationError where
  message : Str
  error_code : Str
deriving DecidableEq, Repr

/-- The dict `AISummarizer.summarize` returns, as read back by the agent
through `dict.get` with defaults (agent.py lines 127-140): optional
fields model a key that may be absent. -/
structure SummaryResultDict where
  summary : Option Str
  key_points : Option (List Str)
  citations : Option (List Str)
  category : Option Str
  tokens_used : Nat
  model_used : Option Str
deriving DecidableEq, Repr

/-- Model of `SummaryRequest` (models.py lines 34-48): the validated record; URL
well-formedness and the http→https upgrade are pydantic's external
`HttpUrl` parser, modelled where needed as a parameter. -/
structure SummaryRequest where
  url : Str
  options : SummaryOptions
deriving DecidableEq, Repr

/-- The effectful stages `WebSummarizerAgent.summarize` sequences, as
functions from inputs to outcomes, plus the external clock readings used
for the metadata. -/
structure PipelineEnv where
  fetchRes : Str → Except FetchError (Str × Str)
  extractRes : Str → Str → Except ExtractionError (Str × Option Str)
  summRes : Str → Option Str → SummaryOptions →
    Except SummarizationError SummaryResultDict
  elapsed_ms : Nat
  timestamp : Str

/-- Model of `WebSummarizerAgent.summarize` (agent.py lines 88-196): run fetch,
extract and summarize in sequence; build the success response from the
stage outputs; convert a raised `FetchError`/`ExtractionError`/
`SummarizationError` into a failed response carrying that stage's message
and error code. -/
def WebSummarizerAgent.summarize (env : PipelineEnv)
    (request : SummaryRequest) : SummaryResponse :=
  let options := request.options
  match env.fetchRes request.url with
  | .error e => ⟨false, none, some e.message, some e.error_code⟩
  | .ok (html, final_url) =>
    match env.extractRes html final_url with
    | .error e => ⟨false, none, some e.message, some e.error_code⟩
    | .ok (cleaned_text, title) =>
      match env.summRes cleaned_text title options with
      | .error e => ⟨false, none, some e.message, some e.error_code⟩
      | .ok res =>
        let metadata : SummaryMetadata :=
          ⟨env.timestamp, res.tokens_used, env.elapsed_ms,
           res.model_used.getD options.model, cleaned_text.length,
           str "readability"⟩
        let data : SummaryData :=
          ⟨final_url, title, res.summary.getD [],
           res.key_points.getD [],
           if options.include_citations then res.citations else none,
           res.category, metadata⟩
        ⟨true, some data, none, none⟩

/-- The default model name of `summarize_url` (agent.py line 204). -/
def defaultSummarizeUrlModel : Str := str "models/gemini-2.5-flash"

/-- Model of `WebSummarizerAgent.summarize_url` (agent.py lines 198-228): build
`SummaryOptions` (its pydantic validation can raise), then the
`SummaryRequest` (whose `HttpUrl` validation `urlCheck` is external), and
run `summarize`; a raised validation error propagates to the caller.
`timeout_seconds` keeps its field default 15. -/
def summarizeUrl (urlCheck : Str → Except Str Str) (env : PipelineEnv)
    (url : Str) (mss nkp : Int) (cit : Bool) (model : Str) :
    Except Str SummaryResponse :=
  match SummaryOptions.make mss nkp cit model 15 with
  | .error e => Except.error e
  | .ok options =>
    match urlCheck url with
    | .error e => Except.error e
    | .ok validated_url =>
      Except.ok (WebSummarizerAgent.summarize env ⟨validated_url, options⟩)

/-- Model of `summarize_url` with all defaulted parameters left at their defaults
(agent.py lines 198-205): `max_summary_sentences=4`, `num_key_points=5`,
`include_citations=False`, `model="models/gemini-2.5-flash"`. -/
def summarizeUrlDefault (urlCheck : Str → Except Str Str)
    (env : PipelineEnv) (url : Str) : Except Str SummaryResponse :=
  summarizeUrl urlCheck env url 4 5 false defaultSummarizeUrlModel

-- C6
/-- Claim C6: `SummaryResponse` construction fails whenever `success` is true and
`data` is `None`, and whenever `success` is false and `error` is `None`. -/
theorem summaryResponse_mandatory_fields
    (e ec : Option Str) (d : Option SummaryData) (ec' : Option Str) :
    isErr (SummaryResponse.make true none e ec) = true ∧
    isErr (SummaryResponse.make false d none ec') = true := by
  constructor
  · simp [SummaryResponse.make, isErr]
  · simp [SummaryResponse.make, isErr]

-- C5 counterexample pieces
/-- A concrete metadata value for counterexamples and witnesses. -/
def sampleMetadata : SummaryMetadata :=
  ⟨str "2024-01-01T00:00:00", 0, 0, str "gemini-1.5-flash", 0, str "readability"⟩

/-- A concrete successful summary payload. -/
def sampleData : SummaryData :=
  ⟨str "https://example.com", some (str "Title"), str "A summary.",
   [str "Point one"], none, none, sampleMetadata⟩

/-- Claim C5 counterexample: a construction with BOTH `data` and `error`
populated is accepted by the validators, refuting the exactly-one
invariant. -/
theorem summaryResponse_both_populated_accepted :
    SummaryResponse.make true (some sampleData) (some (str "boom")) none =
      Except.ok ⟨true, some sampleData, some (str "boom"), none⟩ ∧
    (some sampleData ≠ (none : Option SummaryData)) ∧
    (some (str "boom") ≠ (none : Option Str)) := by
  refine ⟨?_, by simp, by simp⟩
  simp [SummaryResponse.make]

/-- Claim C5 amended: every accepted construction populates the field its
`success` flag mandates, so at least one of `data`/`error` is populated;
both may be. -/
theorem summaryResponse_mandated_field_populated
    (success : Bool) (d : Option SummaryData) (e ec : Option Str)
    (r : SummaryResponse)
    (h : SummaryResponse.make success d e ec = Except.ok r) :
    (r.success = true → r.data ≠ none) ∧
    (r.success = false → r.error ≠ none) ∧
    ¬ (r.data = none ∧ r.error = none) := by
  unfold SummaryResponse.make at h
  split_ifs at h with h1 h2
  cases h
  refine ⟨fun htrue hd => h1 ⟨htrue, hd⟩,
          fun hfalse he => h2 ⟨by simp only [] at hfalse; simp [hfalse], he⟩, ?_⟩
  rintro ⟨hd, he⟩
  cases hs : success
  · exact h2 ⟨by simp [hs], he⟩
  · exact h1 ⟨hs, hd⟩

/-- Claim C5 amended, witness: the theorem applied to a concrete accepted
construction. -/
theorem summaryResponse_mandated_field_populated_witness :
    SummaryResponse.make false none (some (str "boom")) (some (str "CODE")) =
      Except.ok ⟨false, none, some (str "boom"), some (str "CODE")⟩ ∧
    ¬ ((⟨false, none, some (str "boom"), some (str "CODE")⟩ : SummaryResponse).data = none ∧
       (⟨false, none, some (str "boom"), some (str "CODE")⟩ : SummaryResponse).error = none) := by
  have h := summaryResponse_mandated_field_populated false none
    (some (str "boom")) (some (str "CODE"))
    ⟨false, none, some (str "boom"), some (str "CODE")⟩ (by simp [SummaryResponse.make])
  exact ⟨by simp [SummaryResponse.make], h.2.2⟩

-- C1 counterexample
set_option maxRecDepth 4000

/-- Claim C1 counterexample: with an empty body and no hashtags but a
300-character URL the Twitter post content is 304 characters, and with a
23-character URL but a single 260-character hashtag it is 290 characters
— the code reserves only 23 characters for the URL yet concatenates the
full URL text, and the hashtag text is concatenated unbudgeted. -/
theorem twitter_post_over_280_counterexample :
    280 < (generateTwitterPost [] [] (List.replicate 300 'a') []).content.length ∧
    280 < (generateTwitterPost [] [] (str "https://t.co/abc1234567")
      [List.replicate 260 'a']).content.length := by
  constructor
  · decide
  · decide

/-- Claim C1 amended: when the URL is at most 23 characters (the t.co budget
the code reserves) and the joined first-three-hashtag text is at most 250
characters, the Twitter post content fits in 280 characters. -/
theorem twitter_post_length_le_280 (summary : Str) (key_points : List Str)
    (url : Str) (hashtags : List Str)
    (hu : url.length ≤ 23)
    (hh : (joinSpace (hashtags.take 3)).length ≤ 250) :
    (generateTwitterPost summary key_points url hashtags).content.length ≤ 280 := by
  unfold generateTwitterPost
  set H := (joinSpace (hashtags.take 3)).length with hH
  set content0 := (match key_points with
    | [] => summary.take 100
    | k :: _ => k) with hc0
  simp only []
  split_ifs with h1
  · -- truncated branch
    have hk : (0 : Int) ≤ 280 - (23 + (H : Int) + 4) - 3 := by omega
    simp only [pySlice, if_pos hk, List.length_append]
    have : (content0.take (280 - (23 + (H : Int) + 4) - 3).toNat).length ≤
        (280 - (23 + (H : Int) + 4) - 3).toNat := by
      simp [List.length_take]
    have h2 : (280 - (23 + (H : Int) + 4) - 3).toNat = 250 - H := by omega
    simp [str] at *
    omega
  · -- untruncated branch
    push_neg at h1
    simp only [List.length_append, List.length_cons, List.length_nil]
    omega

-- C1 witness
/-- Claim C1 amended, witness at a concrete short URL and hashtag set. -/
theorem twitter_post_length_le_280_witness :
    (str "https://t.co/abc").length ≤ 23 ∧
    (joinSpace ([str "#TechNews"].take 3)).length ≤ 250 ∧
    (generateTwitterPost (str "A summary.") [str "Key point"]
      (str "https://t.co/abc") [str "#TechNews"]).content.length ≤ 280 :=
  ⟨by decide, by decide,
   twitter_post_length_le_280 _ _ _ _ (by decide) (by decide)⟩

-- C2
/-- The error message `validate_model` raises for the default model. -/
theorem summarizeUrlDefault_always_errors
    (urlCheck : Str → Except Str Str) (env : PipelineEnv) (url : Str) :
    summarizeUrlDefault urlCheck env url =
      Except.error (str "Model must be one of the allowed models") := by
  have hmake : SummaryOptions.make 4 5 false defaultSummarizeUrlModel 15 =
      Except.error (str "Model must be one of the allowed models") := by rfl
  simp [summarizeUrlDefault, summarizeUrl, hmake]

/-- Claim C2: the default model name of `summarize_url` is not in the allowed
set, so with default arguments the options validation raises before the
pipeline runs (for every URL, URL validator and pipeline), and the
aggregator's fan-out records every URL of the batch as a failed response
with error code `FETCH_FAILED`. -/
theorem summarizeUrl_defaults_batch_fetch_failed :
    allowedModels.contains defaultSummarizeUrlModel = false ∧
    (∀ urlCheck env url, isErr (summarizeUrlDefault urlCheck env url) = true) ∧
    (∀ urlCheck env urls,
      (fetchSummaries (summarizeUrlDefault urlCheck env) urls).length =
        urls.length ∧
      ∀ r ∈ fetchSummaries (summarizeUrlDefault urlCheck env) urls,
        r.success = false ∧ r.data = none ∧
        r.error_code = some (str "FETCH_FAILED")) := by
  refine ⟨by decide, ?_, ?_⟩
  · intro urlCheck env url
    rw [summarizeUrlDefault_always_errors]
    rfl
  · intro urlCheck env urls
    constructor
    · simp [fetchSummaries]
    · intro r hr
      simp only [fetchSummaries, List.mem_map] at hr
      obtain ⟨u, _, hu⟩ := hr
      rw [summarizeUrlDefault_always_errors] at hu
      simp only [] at hu
      cases hu
      exact ⟨rfl, rfl, rfl⟩

/-- A concrete pipeline environment for witnesses. -/
def sampleEnv : PipelineEnv :=
  ⟨fun _ => Except.error ⟨[], []⟩, fun _ _ => Except.error ⟨[], []⟩,
   fun _ _ _ => Except.error ⟨[], []⟩, 0, []⟩

/-- A concrete URL validator for witnesses: accept the URL unchanged. -/
def sampleUrlCheck : Str → Except Str Str := fun u => Except.ok u

/-- Claim C2 witness: the theorem's quantified parts applied at a concrete
pipeline environment, URL batch and batch element. -/
theorem summarizeUrl_defaults_batch_fetch_failed_witness :
    isErr (summarizeUrlDefault sampleUrlCheck sampleEnv (str "https://a")) = true ∧
    (fetchSummaries (summarizeUrlDefault sampleUrlCheck sampleEnv)
      [str "https://a"]).length = [str "https://a"].length ∧
    ((⟨false, none, some (str "Model must be one of the allowed models"),
        some (str "FETCH_FAILED")⟩ : SummaryResponse).success = false ∧
      (⟨false, none, some (str "Model must be one of the allowed models"),
        some (str "FETCH_FAILED")⟩ : SummaryResponse).data = none ∧
      (⟨false, none, some (str "Model must be one of the allowed models"),
        some (str "FETCH_FAILED")⟩ : SummaryResponse).error_code =
        some (str "FETCH_FAILED")) := by
  have h := summarizeUrl_defaults_batch_fetch_failed
  refine ⟨h.2.1 sampleUrlCheck sampleEnv (str "https://a"),
          (h.2.2 sampleUrlCheck sampleEnv [str "https://a"]).1,
          (h.2.2 sampleUrlCheck sampleEnv [str "https://a"]).2 _ ?_⟩
  simp [fetchSummaries, summarizeUrlDefault_always_errors]

-- C7
/-- Claim C7: on any text the readability pass accepts, extraction raises
`INSUFFICIENT_CONTENT` exactly when the cleaned text is shorter than the
configured minimum; otherwise it returns a text of length between the
minimum and the maximum plus the ellipsis length, truncating to the
maximum and appending the ellipsis when the cleaned text exceeds the
maximum. -/
theorem extract_length_contract (minL maxL : Nat) (hc : minL ≤ maxL)
    (text : Str) :
    ((∃ err, ContentExtractor.extract minL maxL text = Except.error err ∧
        err.error_code = str "INSUFFICIENT_CONTENT") ↔
      (cleanText text).length < minL) ∧
    (∀ out, ContentExtractor.extract minL maxL text = Except.ok out →
      minL ≤ out.length ∧ out.length ≤ maxL + ellipsis.length ∧
      (maxL < (cleanText text).length →
        out = (cleanText text).take maxL ++ ellipsis)) := by
  unfold ContentExtractor.extract
  dsimp only
  split_ifs with h1 h2
  · refine ⟨⟨fun _ => h1, fun _ => ⟨_, rfl, rfl⟩⟩, ?_⟩
    intro out hout
    cases hout
  · refine ⟨⟨?_, fun h => absurd h (by omega)⟩, ?_⟩
    · rintro ⟨err, herr, _⟩
      cases herr
    · intro out hout
      cases hout
      have htake : ((cleanText text).take maxL).length = maxL := by
        simp [List.length_take]
        omega
      refine ⟨?_, ?_, fun _ => rfl⟩
      · simp [List.length_append, htake, ellipsis, str]
        omega
      · simp [List.length_append, htake]
  · refine ⟨⟨?_, fun h => absurd h (by omega)⟩, ?_⟩
    · rintro ⟨err, herr, _⟩
      cases herr
    · intro out hout
      cases hout
      refine ⟨by omega, by omega, fun hgt => absurd hgt (by omega)⟩

/-- Claim C7 witness: the contract applied at the default configuration
(minimum 100, maximum 50000) and a text below the minimum. -/
theorem extract_length_contract_witness :
    (100 ≤ 50000) ∧
    ((∃ err, ContentExtractor.extract 100 50000 (str "short") =
        Except.error err ∧ err.error_code = str "INSUFFICIENT_CONTENT") ↔
      (cleanText (str "short")).length < 100) :=
  ⟨by decide, (extract_length_contract 100 50000 (by decide) (str "short")).1⟩

-- C8
/-- Claim C8: `URLFetcher.fetch` maps each failure cause to exactly one error
code — missing scheme or host to `INVALID_URL`; statuses 404/403/500 to
`NOT_FOUND`/`FORBIDDEN`/`SERVER_ERROR`; any other status ≥ 400 to
`HTTP_<code>`; a transport timeout to `TIMEOUT`; another transport
exception to `REQUEST_FAILED`; any other exception to `UNKNOWN_ERROR` —
and through the agent a 404 fetch yields a failed `SummaryResponse` with
error code `NOT_FOUND`. -/
theorem fetch_error_code_mapping (scheme netloc url body final_url msg : Str)
    (status : Nat) :
    (∀ o, scheme = [] ∨ netloc = [] →
      ∃ e, URLFetcher.fetch scheme netloc url o = Except.error e ∧
        e.error_code = str "INVALID_URL") ∧
    (scheme ≠ [] → netloc ≠ [] →
      (∃ e, URLFetcher.fetch scheme netloc url (.success 404 body final_url) =
          Except.error e ∧ e.error_code = str "NOT_FOUND") ∧
      (∃ e, URLFetcher.fetch scheme netloc url (.success 403 body final_url) =
          Except.error e ∧ e.error_code = str "FORBIDDEN") ∧
      (∃ e, URLFetcher.fetch scheme netloc url (.success 500 body final_url) =
          Except.error e ∧ e.error_code = str "SERVER_ERROR") ∧
      (400 ≤ status → status ≠ 404 → status ≠ 403 → status ≠ 500 →
        ∃ e, URLFetcher.fetch scheme netloc url (.success status body final_url) =
          Except.error e ∧ e.error_code = str "HTTP_" ++ (Nat.repr status).data) ∧
      (status < 400 →
        URLFetcher.fetch scheme netloc url (.success status body final_url) =
          Except.ok (body, final_url)) ∧
      (∃ e, URLFetcher.fetch scheme netloc url .timeout = Except.error e ∧
        e.error_code = str "TIMEOUT") ∧
      (∃ e, URLFetcher.fetch scheme netloc url (.requestExc msg) =
          Except.error e ∧ e.error_code = str "REQUEST_FAILED") ∧
      (∃ e, URLFetcher.fetch scheme netloc url (.otherExc msg) =
          Except.error e ∧ e.error_code = str "UNKNOWN_ERROR")) ∧
    (∀ (extractRes : Str → Str → Except ExtractionError (Str × Option Str))
       (summRes : Str → Option Str → SummaryOptions →
         Except SummarizationError SummaryResultDict)
       (ems : Nat) (ts : Str) (options : SummaryOptions),
      scheme ≠ [] → netloc ≠ [] →
      (WebSummarizerAgent.summarize
        ⟨fun u => URLFetcher.fetch scheme netloc u (.success 404 body final_url),
         extractRes, summRes, ems, ts⟩ ⟨url, options⟩).success = false ∧
      (WebSummarizerAgent.summarize
        ⟨fun u => URLFetcher.fetch scheme netloc u (.success 404 body final_url),
         extractRes, summRes, ems, ts⟩ ⟨url, options⟩).error_code =
        some (str "NOT_FOUND")) := by
  refine ⟨?_, ?_, ?_⟩
  · intro o ho
    unfold URLFetcher.fetch
    rw [if_pos ho]
    exact ⟨_, rfl, rfl⟩
  · intro hs hn
    have hcond : ¬ (scheme = [] ∨ netloc = []) := by
      rintro (h | h) <;> [exact hs h; exact hn h]
    unfold URLFetcher.fetch
    simp only [if_neg hcond]
    refine ⟨⟨_, rfl, rfl⟩, ⟨_, rfl, rfl⟩, ⟨_, rfl, rfl⟩, ?_, ?_,
            ⟨_, rfl, rfl⟩, ⟨_, rfl, rfl⟩, ⟨_, rfl, rfl⟩⟩
    · intro h400 h404 h403 h500
      rw [if_neg h404, if_neg h403, if_neg h500, if_pos (by omega : status ≥ 400)]
      exact ⟨_, rfl, rfl⟩
    · intro hlt
      rw [if_neg (by omega : ¬ status = 404), if_neg (by omega : ¬ status = 403),
          if_neg (by omega : ¬ status = 500), if_neg (by omega : ¬ status ≥ 400)]
  · intro extractRes summRes ems ts options hs hn
    have hcond : ¬ (scheme = [] ∨ netloc = []) := by
      rintro (h | h) <;> [exact hs h; exact hn h]
    have hfetch : URLFetcher.fetch scheme netloc url (.success 404 body final_url) =
        Except.error ⟨str "Page not found (404): " ++
          (if scheme = str "http" then
            replaceFirst (str "http://") (str "https://") url else url),
          str "NOT_FOUND"⟩ := by
      unfold URLFetcher.fetch
      simp only [if_neg hcond]
      rfl
    unfold WebSummarizerAgent.summarize
    dsimp only
    rw [hfetch]
    exact ⟨rfl, rfl⟩

/-- Claim C8 witness: the mapping applied at a concrete parsed URL, a 404
response, a generic 418 status, and a concrete agent environment. -/
theorem fetch_error_code_mapping_witness :
    (∃ e, URLFetcher.fetch (str "https") (str "example.com")
        (str "https://example.com/x")
        (.success 404 [] (str "https://example.com/x")) = Except.error e ∧
      e.error_code = str "NOT_FOUND") ∧
    (∃ e, URLFetcher.fetch (str "https") (str "example.com")
        (str "https://example.com/x")
        (.success 418 [] (str "https://example.com/x")) = Except.error e ∧
      e.error_code = str "HTTP_" ++ (Nat.repr 418).data) ∧
    ((WebSummarizerAgent.summarize
        ⟨fun u => URLFetcher.fetch (str "https") (str "example.com") u
          (.success 404 [] (str "https://example.com/x")),
         sampleEnv.extractRes, sampleEnv.summRes, 0, []⟩
        ⟨str "https://example.com/x",
         ⟨4, 5, false, str "gemini-1.5-flash", 15⟩⟩).success = false ∧
      (WebSummarizerAgent.summarize
        ⟨fun u => URLFetcher.fetch (str "https") (str "example.com") u
          (.success 404 [] (str "https://example.com/x")),
         sampleEnv.extractRes, sampleEnv.summRes, 0, []⟩
        ⟨str "https://example.com/x",
         ⟨4, 5, false, str "gemini-1.5-flash", 15⟩⟩).error_code =
        some (str "NOT_FOUND")) := by
  have h := fetch_error_code_mapping (str "https") (str "example.com")
    (str "https://example.com/x") [] (str "https://example.com/x") [] 418
  refine ⟨(h.2.1 (by decide) (by decide)).1, ?_, ?_⟩
  · exact (h.2.1 (by decide) (by decide)).2.2.2.1
      (by decide) (by decide) (by decide) (by decide)
  · exact h.2.2 sampleEnv.extractRes sampleEnv.summRes 0 []
      ⟨4, 5, false, str "gemini-1.5-flash", 15⟩ (by decide) (by decide)

-- C9
/-- Claim C9: the model-response parse proceeds in fixed priority order and
never fails outright: a strict JSON parse of the whole body first; on
failure, the brace-delimited substring found by the pattern search is
parsed; and when that too fails (or no match exists) the synthetic
result is returned, whose summary is the first 500 characters of the raw
text, whose key points are exactly
`["Unable to extract structured data"]`, and whose category is
`"Unknown"`. -/
theorem parse_model_response_priority (jsonParse : Str → Option Json)
    (content : Str) :
    (∀ r, jsonParse content = some r →
      parseModelResponse jsonParse content = r) ∧
    (jsonParse content = none →
      (∀ sub r, braceSearch content = some sub → jsonParse sub = some r →
        parseModelResponse jsonParse content = r) ∧
      ((braceSearch content = none ∨
          ∃ sub, braceSearch content = some sub ∧ jsonParse sub = none) →
        parseModelResponse jsonParse content =
          Json.obj
            [(str "summary", Json.s (content.take 500)),
             (str "key_points",
              Json.arr [Json.s (str "Unable to extract structured data")]),
             (str "category", Json.s (str "Unknown"))])) := by
  have hsyn : syntheticResult content =
      Json.obj
        [(str "summary", Json.s (content.take 500)),
         (str "key_points",
          Json.arr [Json.s (str "Unable to extract structured data")]),
         (str "category", Json.s (str "Unknown"))] := by
    unfold syntheticResult
    split_ifs with h
    · rfl
    · rw [List.take_of_length_le (by omega)]
  constructor
  · intro r hr
    unfold parseModelResponse
    rw [hr]
  · intro hnone
    constructor
    · intro sub r hsub hr
      unfold parseModelResponse extractFromText
      rw [hnone, hsub]
      dsimp only
      rw [hr]
    · intro hfail
      unfold parseModelResponse extractFromText
      rw [hnone]
      rcases hfail with hbs | ⟨sub, hsub, hfailsub⟩
      · rw [hbs]
        dsimp only
        exact hsyn
      · rw [hsub]
        dsimp only
        rw [hfailsub]
        dsimp only
        exact hsyn

/-- Claim C9 witness: the synthetic-degradation branch applied at a concrete
parser that always fails and a brace-free text. -/
theorem parse_model_response_priority_witness :
    ((fun _ => (none : Option Json)) (str "hello") = none) ∧
    (braceSearch (str "hello") = none) ∧
    parseModelResponse (fun _ => none) (str "hello") =
      Json.obj
        [(str "summary", Json.s ((str "hello").take 500)),
         (str "key_points",
          Json.arr [Json.s (str "Unable to extract structured data")]),
         (str "category", Json.s (str "Unknown"))] :=
  ⟨rfl, by decide,
   ((parse_model_response_priority (fun _ => none) (str "hello")).2 rfl).2
     (Or.inl (by decide))⟩

-- C10 / C3
/-- The master summary of an aggregation is the master-summary pass over
the fan-out results. -/
theorem aggregateTopic_master_summary (summarizer : AISummarizer)
    (gen : Str → Except Str Str) (topic : Str) (urls : List Str)
    (platformsOpt : Option (List Str))
    (outcome : Str → Except Str SummaryResponse) :
    (aggregateTopic summarizer gen topic urls platformsOpt outcome).master_summary =
      generateMasterSummary summarizer gen (fetchSummaries outcome urls) topic := rfl

/-- Claim C10: when exactly one per-URL summarization succeeds, the master
summary is that single success's summary text — for every synthesis
function `gen`, so no generative-model call influences the result. -/
theorem master_summary_single_success (summarizer : AISummarizer)
    (gen : Str → Except Str Str) (topic : Str) (urls : List Str)
    (platformsOpt : Option (List Str))
    (outcome : Str → Except Str SummaryResponse)
    (r : SummaryResponse) (d : SummaryData)
    (hfilter : (fetchSummaries outcome urls).filter (fun s => s.success) = [r])
    (hd : r.data = some d) :
    (aggregateTopic summarizer gen topic urls platformsOpt outcome).master_summary =
      d.summary := by
  rw [aggregateTopic_master_summary]
  unfold generateMasterSummary
  dsimp only
  rw [hfilter]
  dsimp only
  unfold dataSummary
  rw [hd]
  rfl

/-- Claim C10 witness: a single-URL aggregation with one success and a
synthesis function that would return different text. -/
theorem master_summary_single_success_witness :
    ((fetchSummaries (fun _ => Except.ok ⟨true, some sampleData, none, none⟩)
        [str "https://a"]).filter (fun s => s.success) =
      [⟨true, some sampleData, none, none⟩]) ∧
    (aggregateTopic ⟨str "key"⟩ (fun _ => Except.ok (str "SYNTH"))
        (str "ai") [str "https://a"] none
        (fun _ => Except.ok ⟨true, some sampleData, none, none⟩)).master_summary =
      sampleData.summary := by
  refine ⟨by decide, ?_⟩
  exact master_summary_single_success ⟨str "key"⟩ (fun _ => Except.ok (str "SYNTH"))
    (str "ai") [str "https://a"] none
    (fun _ => Except.ok ⟨true, some sampleData, none, none⟩)
    ⟨true, some sampleData, none, none⟩ sampleData (by decide) rfl

/-- Claim C3: with at least two successful summaries, the master summary is
always the FIRST successful summary's text, for every synthesis function
`gen`: the synthesis branch reads `self.agent.summarizer.client`, an
attribute `AISummarizer.__init__` never assigns, so the attempt raises
and the fallback is taken unconditionally. -/
theorem master_summary_multi_falls_back (summarizer : AISummarizer)
    (gen : Str → Except Str Str) (topic : Str) (urls : List Str)
    (platformsOpt : Option (List Str))
    (outcome : Str → Except Str SummaryResponse)
    (r1 r2 : SummaryResponse) (rest : List SummaryResponse) (d1 : SummaryData)
    (hfilter : (fetchSummaries outcome urls).filter (fun s => s.success) =
      r1 :: r2 :: rest)
    (hd : r1.data = some d1) :
    (aggregateTopic summarizer gen topic urls platformsOpt outcome).master_summary =
      d1.summary := by
  rw [aggregateTopic_master_summary]
  unfold generateMasterSummary
  dsimp only
  rw [hfilter]
  dsimp only
  have hclient : summarizer.hasClientAttr = false := rfl
  simp only [hclient, Bool.false_eq_true, if_false]
  unfold dataSummary
  rw [hd]
  rfl

/-- Claim C3 witness: a two-URL aggregation where both succeed and the
synthesis function would return different text; the master summary is
still the first success's summary. -/
theorem master_summary_multi_falls_back_witness :
    ((fetchSummaries (fun _ => Except.ok ⟨true, some sampleData, none, none⟩)
        [str "https://a", str "https://b"]).filter (fun s => s.success) =
      [⟨true, some sampleData, none, none⟩, ⟨true, some sampleData, none, none⟩]) ∧
    (aggregateTopic ⟨str "key"⟩ (fun _ => Except.ok (str "SYNTH"))
        (str "ai") [str "https://a", str "https://b"] none
        (fun _ => Except.ok ⟨true, some sampleData, none, none⟩)).master_summary =
      sampleData.summary := by
  refine ⟨by decide, ?_⟩
  exact master_summary_multi_falls_back ⟨str "key"⟩ (fun _ => Except.ok (str "SYNTH"))
    (str "ai") [str "https://a", str "https://b"] none
    (fun _ => Except.ok ⟨true, some sampleData, none, none⟩)
    ⟨true, some sampleData, none, none⟩ ⟨true, some sampleData, none, none⟩ []
    sampleData (by decide) rfl

-- C4
/-- Each success (whose data is present) contributes exactly one row and
each failure none. -/
theorem row_count_eq_success_count (f : SummaryData → Row) :
    ∀ (l : List SummaryResponse),
      (∀ r ∈ l, r.success = true → r.data ≠ none) →
      (l.filterMap (fun r =>
        if r.success then r.data.map f else none)).length =
        (l.filter (fun r => r.success)).length := by
  intro l
  induction l with
  | nil => intro _; rfl
  | cons a t ih =>
    intro h
    have ht := ih (fun r hr => h r (List.mem_cons_of_mem a hr))
    by_cases ha : a.success = true
    · obtain ⟨d, hd⟩ : ∃ d, a.data = some d := by
        cases hda : a.data with
        | none => exact absurd hda (h a (List.mem_cons_self a t) ha)
        | some d => exact ⟨d, rfl⟩
      simp [List.filterMap_cons, List.filter_cons, ha, hd, ht]
    · simp [List.filterMap_cons, List.filter_cons, ha, ht]

/-- Claim C4: aggregating N URLs of which K succeed yields
`total_sources = N`, `successful_summaries = K`,
`failed_summaries = N − K`, and exactly K export rows. -/
theorem aggregate_topic_counts (summarizer : AISummarizer)
    (gen : Str → Except Str Str) (topic : Str) (urls : List Str)
    (platformsOpt : Option (List Str))
    (outcome : Str → Except Str SummaryResponse)
    (hvalid : ∀ r ∈ fetchSummaries outcome urls,
      r.success = true → r.data ≠ none) :
    (aggregateTopic summarizer gen topic urls platformsOpt outcome).total_sources =
      urls.length ∧
    (aggregateTopic summarizer gen topic urls platformsOpt outcome).successful_summaries =
      ((fetchSummaries outcome urls).filter (fun r => r.success)).length ∧
    (aggregateTopic summarizer gen topic urls platformsOpt outcome).failed_summaries =
      urls.length -
        ((fetchSummaries outcome urls).filter (fun r => r.success)).length ∧
    (aggregateTopic summarizer gen topic urls platformsOpt outcome).data.length =
      ((fetchSummaries outcome urls).filter (fun r => r.success)).length := by
  have hrows := row_count_eq_success_count
    (rowFor topic (platformsOpt.getD [str "twitter", str "linkedin", str "facebook"]))
    (fetchSummaries outcome urls) hvalid
  exact ⟨rfl, hrows, congrArg (fun n => urls.length - n) hrows, hrows⟩

/-- Claim C4 witness: two URLs, one succeeding and one raising, give one
success row and one failure. -/
theorem aggregate_topic_counts_witness :
    (∀ r ∈ fetchSummaries
        (fun u => if u = str "https://a"
          then Except.ok ⟨true, some sampleData, none, none⟩
          else Except.error (str "boom"))
        [str "https://a", str "https://b"],
      r.success = true → r.data ≠ none) ∧
    (aggregateTopic ⟨str "key"⟩ (fun _ => Except.ok (str "SYNTH"))
        (str "ai") [str "https://a", str "https://b"] none
        (fun u => if u = str "https://a"
          then Except.ok ⟨true, some sampleData, none, none⟩
          else Except.error (str "boom"))).successful_summaries =
      ((fetchSummaries
        (fun u => if u = str "https://a"
          then Except.ok ⟨true, some sampleData, none, none⟩
          else Except.error (str "boom"))
        [str "https://a", str "https://b"]).filter (fun r => r.success)).length := by
  refine ⟨by decide, ?_⟩
  exact (aggregate_topic_counts ⟨str "key"⟩ (fun _ => Except.ok (str "SYNTH"))
    (str "ai") [str "https://a", str "https://b"] none
    (fun u => if u = str "https://a"
      then Except.ok ⟨true, some sampleData, none, none⟩
      else Except.error (str "boom")) (by decide)).2.1
